import Mathlib

/-!
Verification of the link-resolution and click-tracking core of a URL
shortener (Express + Prisma). The embedding below translates the
relevant JavaScript sources:

* `redirectHandler` (track controller): slug lookup, expiry check,
  password gate, click insert (failures swallowed), webhook dispatch,
  302 redirect.
* `createLink` (link service): the password-hashing part (`bcrypt.hash`
  when the supplied password is truthy, `null` otherwise).
* `lookup` (geo service): LRU/TTL cache (500 entries, 1 hour) in front
  of an external HTTP provider; falsy-ip short circuit; negative
  results not cached; falsy-field normalization (`x || null`).
* `sendWebhook` (webhook service): best-effort POST, all failures
  caught and logged, nothing propagated.

JavaScript conventions used throughout: nullable strings are
`Option String`, with `none` for `null`/`undefined`; string truthiness
(`if (s)`) is `none ↦ false`, `some "" ↦ false`, otherwise `true`;
timestamps are epoch milliseconds (`Int`).  Database and network
effects are made explicit: the link row is an input, the click insert
and webhook POST are recorded in an effect trace, and their
success/failure is a boolean input to the handler.
-/

namespace UrlShortener

/-- JavaScript truthiness of a nullable string: `null`, `undefined` and
`""` are falsy, every other string truthy. -/
def strTruthy : Option String → Bool
  | none => false
  | some s => s ≠ ""

/-- JavaScript `a || b` on nullable strings: the first operand when it
is truthy, otherwise the second. -/
def jsOr (a b : Option String) : Option String :=
  if strTruthy a then a else b

/-- A `Link` row as the redirect handler reads it (`prisma.link.findUnique`):
the fields the resolution path consults.  `password` is the stored column
(`null` or a bcrypt hash string), `expiresAt` the optional absolute expiry
instant in epoch milliseconds. -/
structure Link where
  id : Nat
  slug : String
  destination : String
  password : Option String
  expiresAt : Option Int
  webhookUrl : Option String
  deriving DecidableEq, Repr

/-- Side effects the redirect handler performs after the gates pass, in
program order: the awaited `prisma.click.create` attempt (with whether
the store accepted it) and the detached `sendWebhook` POST (with whether
delivery succeeded). -/
inductive Effect where
  | clickInsert (ok : Bool)
  | webhookPost (url : String) (delivered : Bool)
  deriving DecidableEq, Repr

/-- The HTTP response assembled by `redirectHandler` plus its recorded
effect trace: `status` code, `location` of `res.redirect`, plain-text
`body` of `res.send`, and the JSON challenge body
`{error, challenge}` of the 401 branch. -/
structure HandlerResult where
  status : Nat
  location : Option String
  body : Option String
  challengeJson : Option (String × Bool)
  effects : List Effect
  deriving DecidableEq, Repr

/-- `sendWebhook(webhookUrl, clickData, link)` from the webhook service,
as the effect trace it produces.  The function returns after an internal
guard (`if (!webhookUrl) return;`) and a `try`/`catch` that logs and
discards every axios failure, so its type has no error channel: a failed
delivery is recorded in the trace but nothing is thrown to the caller. -/
def sendWebhook (webhookUrl : Option String) (delivered : Bool) : List Effect :=
  match webhookUrl with
  | none => []
  | some u => if u = "" then [] else [Effect.webhookPost u delivered]

/-- The expiry guard of `redirectHandler`:
`link.expiresAt && new Date() > new Date(link.expiresAt)` — a `null`
expiry is falsy, otherwise the comparison of epoch milliseconds is
strict. -/
def isExpired (expiresAt : Option Int) (now : Int) : Bool :=
  match expiresAt with
  | none => false
  | some t => now > t

/-- The password guard of `redirectHandler`: the stored column is truthy
and the supplied password (`req.query.password || req.body.password`) is
falsy or not strictly equal (`!==`) to the stored column — note the
comparison is plain string equality against the stored value, which
`createLink` fills with a bcrypt hash. -/
def passwordGateFails (link : Link) (queryPassword bodyPassword : Option String) : Bool :=
  strTruthy link.password &&
    (let provided := jsOr queryPassword bodyPassword
     !strTruthy provided || provided != link.password)

/-- `redirectHandler(req, res)` from the track controller, as a function
of the looked-up link row (`none` when `findUnique` misses), the
password carried in the query string and body, the current time, and the
success of the click insert and webhook delivery:

* no row → `404 "Not found"`, no effects;
* expired → `410 "Gone"`, no effects;
* password gate fails → `401 {error, challenge:true}`, no effects;
* otherwise: the click insert is attempted (its failure caught and
  logged), then the webhook is dispatched when `link.webhookUrl` is
  truthy, then `res.redirect(link.destination)` (status 302). -/
def redirectHandler (link? : Option Link) (queryPassword bodyPassword : Option String)
    (now : Int) (insertOk webhookDelivered : Bool) : HandlerResult :=
  match link? with
  | none => ⟨404, none, some "Not found", none, []⟩
  | some link =>
    if isExpired link.expiresAt now then
      ⟨410, none, some "Gone", none, []⟩
    else if passwordGateFails link queryPassword bodyPassword then
      ⟨401, none, none, some ("Password required", true), []⟩
    else
      ⟨302, some link.destination, none, none,
        Effect.clickInsert insertOk ::
          (if strTruthy link.webhookUrl then sendWebhook link.webhookUrl webhookDelivered
           else [])⟩

/-- Whether a handler run dispatched a webhook POST. -/
def dispatchesWebhook (r : HandlerResult) : Bool :=
  r.effects.any fun e =>
    match e with
    | .webhookPost _ _ => true
    | _ => false

/-- Model of the external `bcrypt.hash(p, 10)` call used by `createLink`:
a deterministic stand-in keeping the properties the claims depend on —
real bcrypt output always begins with the modular-crypt prefix
`$2b$10$...`, so the hash string is never the plaintext itself. -/
def bcryptHash (p : String) : String := "$2b$10$" ++ p

/-- The password column `createLink` stores: `null` unless the supplied
password is truthy, in which case the bcrypt hash of the plaintext
(`let hashedPassword = null; if (password) hashedPassword = await
bcrypt.hash(password, 10);`). -/
def createLinkPassword : Option String → Option String
  | none => none
  | some p => if p = "" then none else some (bcryptHash p)

/-- The link row produced by a `createLink` call, restricted to the
fields the redirect path reads: destination stored as supplied, password
hashed via `createLinkPassword`, expiry and webhook URL stored as
supplied. -/
def createLinkRow (id : Nat) (slug destination : String)
    (password : Option String) (expiresAt : Option Int)
    (webhookUrl : Option String) : Link :=
  { id := id, slug := slug, destination := destination,
    password := createLinkPassword password,
    expiresAt := expiresAt, webhookUrl := webhookUrl }

/-- The cache TTL of the geo service: `ttl: 1000 * 60 * 60` (one hour),
in milliseconds. -/
def geoTtl : Int := 1000 * 60 * 60

/-- The cache capacity of the geo service: `max: 500`. -/
def geoMax : Nat := 500

/-- The normalized value the geo service caches and returns: `null`
fields become `none`.  `lat`/`lon` are the provider's JSON numbers;
the claims only concern the value `0`, so they are embedded as `Int`. -/
structure GeoResult where
  ip : String
  country : Option String
  region : Option String
  city : Option String
  lat : Option Int
  lon : Option Int
  deriving DecidableEq, Repr

/-- One entry of the `lru-cache` instance: key, value and the time
`cache.set` ran (the TTL clock starts at insertion and is not reset by
`get`). -/
structure CacheEntry where
  key : String
  value : GeoResult
  insertedAt : Int
  deriving DecidableEq, Repr

/-- The `lru-cache` state, most recently used first. -/
abbrev CacheState := List CacheEntry

/-- `cache.get(ip)` at time `now`: a hit on a non-stale entry (an entry
is stale when `now - insertedAt > ttl`) returns its value and moves it
to the most-recently-used position; a stale entry is deleted and the
get misses; an absent key misses and leaves the cache unchanged. -/
def cacheGet (st : CacheState) (key : String) (now : Int) :
    Option GeoResult × CacheState :=
  match st.find? (fun e => e.key = key) with
  | none => (none, st)
  | some e =>
    if now - e.insertedAt > geoTtl then
      (none, st.filter (fun x => x.key ≠ key))
    else
      (some e.value, e :: st.filter (fun x => x.key ≠ key))

/-- `cache.set(ip, out)` at time `now`: insert (or refresh) the entry at
the most-recently-used position with a fresh TTL clock, evicting the
least recently used entry when the capacity of 500 would be exceeded. -/
def cacheSet (st : CacheState) (key : String) (v : GeoResult) (now : Int) :
    CacheState :=
  (⟨key, v, now⟩ :: st.filter (fun e => e.key ≠ key)).take geoMax

/-- The JSON payload of the geo provider (`ip-api.com/json/<ip>`), with
`none` for absent fields.  `regionName`/`region` are both consulted by
the normalizer. -/
structure GeoApiData where
  status : Option String
  country : Option String
  regionName : Option String
  region : Option String
  city : Option String
  lat : Option Int
  lon : Option Int
  deriving DecidableEq, Repr

/-- How the external `fetch` of one lookup behaves: rejection (network
error / timeout), a non-ok HTTP response (`!res.ok`), a body
`res.json()` fails to parse, or a parsed JSON payload. -/
inductive ProviderBehavior where
  | unreachable
  | badStatus
  | malformed
  | payload (data : GeoApiData)
  deriving DecidableEq, Repr

/-- Whether a provider behavior is one of the failure cases the spec
enumerates: network error, non-success response, malformed payload, or
a provider-reported status other than `"success"`. -/
def providerFails : ProviderBehavior → Bool
  | .unreachable => true
  | .badStatus => true
  | .malformed => true
  | .payload d => d.status ≠ some "success"

/-- JavaScript `s || null` on a nullable string: `null` for falsy
(absent or empty), the string itself otherwise. -/
def strOrNull : Option String → Option String
  | none => none
  | some s => if s = "" then none else some s

/-- JavaScript `n || null` on a nullable number: `null` for falsy
(absent or `0`), the number itself otherwise. -/
def numOrNull : Option Int → Option Int
  | none => none
  | some n => if n = 0 then none else some n

/-- The normalization block of the geo `lookup`:
`{ ip, country: data.country || null, region: data.regionName ||
data.region || null, city: data.city || null, lat: data.lat || null,
lon: data.lon || null }`. -/
def normalizeGeo (ip : String) (d : GeoApiData) : GeoResult :=
  { ip := ip
    country := strOrNull d.country
    region := strOrNull (jsOr d.regionName d.region)
    city := strOrNull d.city
    lat := numOrNull d.lat
    lon := numOrNull d.lon }

/-- What one geo `lookup` call produced: the returned value, the cache
state afterwards, and whether the external `fetch` ran. -/
structure LookupResult where
  value : Option GeoResult
  cache : CacheState
  madeExternalCall : Bool
  deriving DecidableEq, Repr

/-- `lookup(ip)` from the geo service, over an explicit cache state and
clock, with the external provider's behavior as an input (`fetch` is
only consulted on a cache miss):

* falsy `ip` (JS `null`/`undefined`/`""`, all embedded as `""`) returns
  `null` with no cache access and no external call;
* a cache hit returns the cached object immediately, no external call;
* on a miss, the fetch runs: a rejection is caught and returns `null`,
  `!res.ok` returns `null`, a body that fails to parse is caught and
  returns `null`, and a payload with `status !== "success"` returns
  `null` — none of these touch the cache;
* a success payload is normalized, cached via `cache.set`, and
  returned. -/
def lookup (st : CacheState) (ip : String) (now : Int)
    (provider : ProviderBehavior) : LookupResult :=
  if ip = "" then ⟨none, st, false⟩
  else
    match cacheGet st ip now with
    | (some v, st') => ⟨some v, st', false⟩
    | (none, st') =>
      match provider with
      | .unreachable => ⟨none, st', true⟩
      | .badStatus => ⟨none, st', true⟩
      | .malformed => ⟨none, st', true⟩
      | .payload d =>
        if d.status ≠ some "success" then ⟨none, st', true⟩
        else
          let out := normalizeGeo ip d
          ⟨some out, cacheSet st' ip out now, true⟩

/-! ## Claims about the redirect handler -/

/-- A run on an existing, non-expired link answers either 401 or 302. -/
lemma status_of_not_expired (link : Link) (qp bp : Option String) (now : Int)
    (ok wok : Bool) (h : isExpired link.expiresAt now = false) :
    (redirectHandler (some link) qp bp now ok wok).status = 401 ∨
    (redirectHandler (some link) qp bp now ok wok).status = 302 := by
  simp only [redirectHandler, h, Bool.false_eq_true, if_false]
  split
  · exact Or.inl rfl
  · exact Or.inr rfl

/-- C2: a link whose `expiresAt` is set and strictly in the past resolves
to `Expired` (410, empty effect trace) regardless of password state; the
comparison is strict, so at `now = expiresAt` the outcome is not 410; a
link with `expiresAt` unset never yields 410. -/
theorem expiry_check_strict (link : Link) (qp bp : Option String) (now : Int)
    (ok wok : Bool) :
    (∀ t, link.expiresAt = some t → now > t →
      redirectHandler (some link) qp bp now ok wok =
        ⟨410, none, some "Gone", none, []⟩) ∧
    (∀ t, link.expiresAt = some t → now = t →
      (redirectHandler (some link) qp bp now ok wok).status ≠ 410) ∧
    (link.expiresAt = none →
      (redirectHandler (some link) qp bp now ok wok).status ≠ 410) := by
  refine ⟨?_, ?_, ?_⟩
  · intro t ht hgt
    simp [redirectHandler, isExpired, ht, hgt]
  · intro t ht heq
    have hexp : isExpired link.expiresAt now = false := by
      simp [isExpired, ht, heq]
    rcases status_of_not_expired link qp bp now ok wok hexp with h | h <;> simp [h]
  · intro ht
    have hexp : isExpired link.expiresAt now = false := by
      simp [isExpired, ht]
    rcases status_of_not_expired link qp bp now ok wok hexp with h | h <;> simp [h]

/-- Witness for `expiry_check_strict` at concrete inputs: a link that
expired at time 5 resolved at time 10 gives the 410 result; at time 5
exactly, and with no expiry, the status is not 410. -/
theorem expiry_check_strict_witness :
    (redirectHandler (some ⟨1, "old", "https://example.com/a", none, some 5, none⟩)
        none none 10 true true = ⟨410, none, some "Gone", none, []⟩) ∧
    ((redirectHandler (some ⟨1, "old", "https://example.com/a", none, some 5, none⟩)
        none none 5 true true).status ≠ 410) ∧
    ((redirectHandler (some ⟨1, "new", "https://example.com/a", none, none, none⟩)
        none none 5 true true).status ≠ 410) :=
  ⟨(expiry_check_strict _ none none 10 true true).1 5 rfl (by decide),
   (expiry_check_strict _ none none 5 true true).2.1 5 rfl rfl,
   (expiry_check_strict _ none none 5 true true).2.2 rfl⟩

/-- C3: every `GET /{slug}` run lands in exactly one of the four
response shapes: 404 when the slug is unknown, 410 when the link is
expired, 401 with the `{error, challenge:true}` JSON body when the
password gate fails, and a 302 redirect to the link's destination
otherwise. -/
theorem handler_outcomes (link? : Option Link) (qp bp : Option String)
    (now : Int) (ok wok : Bool) :
    (link? = none ∧ (redirectHandler link? qp bp now ok wok).status = 404) ∨
    (∃ link, link? = some link ∧ isExpired link.expiresAt now = true ∧
      (redirectHandler link? qp bp now ok wok).status = 410) ∨
    (∃ link, link? = some link ∧ isExpired link.expiresAt now = false ∧
      passwordGateFails link qp bp = true ∧
      (redirectHandler link? qp bp now ok wok).status = 401 ∧
      (redirectHandler link? qp bp now ok wok).challengeJson =
        some ("Password required", true)) ∨
    (∃ link, link? = some link ∧ isExpired link.expiresAt now = false ∧
      passwordGateFails link qp bp = false ∧
      (redirectHandler link? qp bp now ok wok).status = 302 ∧
      (redirectHandler link? qp bp now ok wok).location = some link.destination) := by
  match link? with
  | none => exact Or.inl ⟨rfl, rfl⟩
  | some link =>
    by_cases hexp : isExpired link.expiresAt now
    · exact Or.inr (Or.inl ⟨link, rfl, hexp, by simp [redirectHandler, hexp]⟩)
    · by_cases hgate : passwordGateFails link qp bp
      · refine Or.inr (Or.inr (Or.inl ⟨link, rfl, by simpa using hexp, hgate, ?_, ?_⟩)) <;>
          simp [redirectHandler, hexp, hgate]
      · refine Or.inr (Or.inr (Or.inr ⟨link, rfl, by simpa using hexp,
          by simpa using hgate, ?_, ?_⟩)) <;>
          simp [redirectHandler, hexp, hgate]

/-- C4: a run whose outcome is a denial (404, 410 or 401) records no
click and dispatches no webhook — its effect trace is empty. -/
theorem denial_no_side_effects (link? : Option Link) (qp bp : Option String)
    (now : Int) (ok wok : Bool)
    (h : (redirectHandler link? qp bp now ok wok).status = 404 ∨
         (redirectHandler link? qp bp now ok wok).status = 410 ∨
         (redirectHandler link? qp bp now ok wok).status = 401) :
    (redirectHandler link? qp bp now ok wok).effects = [] := by
  match link? with
  | none => rfl
  | some link =>
    by_cases hexp : isExpired link.expiresAt now
    · simp [redirectHandler, hexp]
    · by_cases hgate : passwordGateFails link qp bp
      · simp [redirectHandler, hexp, hgate]
      · exfalso
        simp [redirectHandler, hexp, hgate] at h

/-- Witness for `denial_no_side_effects`: resolving an unknown slug
(no link row) yields status 404 and an empty effect trace. -/
theorem denial_no_side_effects_witness :
    (redirectHandler none none none 0 true true).effects = [] :=
  denial_no_side_effects none none none 0 true true (Or.inl rfl)

/-- C5: once the gates pass, the HTTP response is the 302 redirect to
the link's destination for every combination of click-insert success and
webhook-delivery success — in particular when both fail — and carries no
error body or challenge: analytics and notification failures never reach
the HTTP caller. -/
theorem redirect_despite_downstream_failures (link : Link) (qp bp : Option String)
    (now : Int) (hexp : isExpired link.expiresAt now = false)
    (hgate : passwordGateFails link qp bp = false) :
    ∀ ok wok : Bool,
      (redirectHandler (some link) qp bp now ok wok).status = 302 ∧
      (redirectHandler (some link) qp bp now ok wok).location = some link.destination ∧
      (redirectHandler (some link) qp bp now ok wok).body = none ∧
      (redirectHandler (some link) qp bp now ok wok).challengeJson = none := by
  intro ok wok
  simp [redirectHandler, hexp, hgate]

/-- Witness for `redirect_despite_downstream_failures`: an unprotected,
non-expiring link still answers 302 to its destination when both the
click insert and the webhook delivery fail. -/
theorem redirect_despite_downstream_failures_witness :
    (redirectHandler (some ⟨1, "promo1", "https://example.com/landing", none, none,
        some "https://hooks.example/notify"⟩) none none 0 false false).status = 302 ∧
    (redirectHandler (some ⟨1, "promo1", "https://example.com/landing", none, none,
        some "https://hooks.example/notify"⟩) none none 0 false false).location =
      some "https://example.com/landing" ∧
    (redirectHandler (some ⟨1, "promo1", "https://example.com/landing", none, none,
        some "https://hooks.example/notify"⟩) none none 0 false false).body = none ∧
    (redirectHandler (some ⟨1, "promo1", "https://example.com/landing", none, none,
        some "https://hooks.example/notify"⟩) none none 0 false false).challengeJson = none :=
  redirect_despite_downstream_failures
    ⟨1, "promo1", "https://example.com/landing", none, none, some "https://hooks.example/notify"⟩
    none none 0 rfl rfl false false

/-- C6 counterexample: the claim says a failed click insert suppresses
the webhook POST, but in the run below the insert fails
(`clickInsert false`) and the webhook POST is still dispatched — the
`catch` around `prisma.click.create` swallows the failure and execution
falls through to `sendWebhook`. -/
theorem webhook_after_failed_insert_counterexample :
    (redirectHandler (some ⟨1, "promo1", "https://example.com/landing", none, none,
        some "https://hooks.example/notify"⟩) none none 0 false true).effects =
      [Effect.clickInsert false,
       Effect.webhookPost "https://hooks.example/notify" true] := rfl

/-- C6 amended: on a resolved link the webhook is dispatched exactly
when the link has a truthy webhook URL, regardless of whether the click
insert succeeded; the insert attempt always precedes the dispatch in the
effect trace. -/
theorem webhook_dispatch_independent_of_insert (link : Link) (qp bp : Option String)
    (now : Int) (hexp : isExpired link.expiresAt now = false)
    (hgate : passwordGateFails link qp bp = false) :
    ∀ ok wok : Bool,
      dispatchesWebhook (redirectHandler (some link) qp bp now ok wok) =
        strTruthy link.webhookUrl ∧
      (redirectHandler (some link) qp bp now ok wok).effects =
        Effect.clickInsert ok ::
          (if strTruthy link.webhookUrl then sendWebhook link.webhookUrl wok else []) := by
  intro ok wok
  refine ⟨?_, by simp [redirectHandler, hexp, hgate]⟩
  simp only [redirectHandler, hexp, hgate, Bool.false_eq_true, if_false]
  match hw : link.webhookUrl with
  | none => simp [dispatchesWebhook, strTruthy, sendWebhook]
  | some u =>
    by_cases hu : u = "" <;>
      simp [dispatchesWebhook, strTruthy, sendWebhook, hu]

/-- Witness for `webhook_dispatch_independent_of_insert`: with a
configured webhook URL and a failed insert, the dispatch flag is true
and the trace is the insert attempt followed by the POST. -/
theorem webhook_dispatch_independent_of_insert_witness :
    dispatchesWebhook (redirectHandler (some ⟨1, "promo1", "https://example.com/landing",
        none, none, some "https://hooks.example/notify"⟩) none none 0 false true) =
      strTruthy (some "https://hooks.example/notify") ∧
    (redirectHandler (some ⟨1, "promo1", "https://example.com/landing", none, none,
        some "https://hooks.example/notify"⟩) none none 0 false true).effects =
      Effect.clickInsert false ::
        (if strTruthy (some "https://hooks.example/notify") then
          sendWebhook (some "https://hooks.example/notify") true else []) :=
  webhook_dispatch_independent_of_insert
    ⟨1, "promo1", "https://example.com/landing", none, none, some "https://hooks.example/notify"⟩
    none none 0 rfl rfl false true

/-- A bcrypt hash is seven characters (the modular-crypt prefix) longer
than its input. -/
lemma bcryptHash_length (p : String) : (bcryptHash p).length = 7 + p.length := by
  have h7 : ("$2b$10$" : String).length = 7 := rfl
  simp [bcryptHash, String.length_append, h7]

/-- A bcrypt hash is never the plaintext it hashes. -/
lemma bcryptHash_ne (p : String) : bcryptHash p ≠ p := by
  intro h
  have hlen := bcryptHash_length p
  rw [h] at hlen
  omega

/-- A bcrypt hash is never the empty string. -/
lemma bcryptHash_ne_empty (p : String) : bcryptHash p ≠ "" := by
  intro h
  have hlen := bcryptHash_length p
  rw [h] at hlen
  simp at hlen
  omega

/-- C1, what the code actually does: for a link created with any truthy
password, resolving with the very password supplied at creation yields
the 401 `PasswordRequired` challenge, not a redirect.  `createLink`
stores `bcrypt.hash(password)` in the password column, while
`redirectHandler` compares the supplied plaintext to that column with
`!==`; a plaintext never equals its bcrypt hash, so the gate can never
pass on the documented interface. -/
theorem correct_password_still_challenged (p slug dest : String) (hp : p ≠ "")
    (id : Nat) (now : Int) (ok wok : Bool) :
    redirectHandler (some (createLinkRow id slug dest (some p) none none))
        (some p) none now ok wok =
      ⟨401, none, none, some ("Password required", true), []⟩ := by
  have hstore : (createLinkRow id slug dest (some p) none none).password =
      some (bcryptHash p) := by
    simp [createLinkRow, createLinkPassword, hp]
  have hne : p ≠ bcryptHash p := fun h => bcryptHash_ne p h.symm
  have hgate : passwordGateFails (createLinkRow id slug dest (some p) none none)
      (some p) none = true := by
    simp only [passwordGateFails, hstore, strTruthy, jsOr]
    simp [hp, bcryptHash_ne_empty p, hne]
  have hexp : isExpired (createLinkRow id slug dest (some p) none none).expiresAt now =
      false := by
    simp [createLinkRow, isExpired]
  simp [redirectHandler, hexp, hgate]

/-- Witness for `correct_password_still_challenged`: the link of the
spec's concrete scenario, created with password `hunter2`; `GET
/secret?password=hunter2` answers the 401 challenge instead of the 302
the spec expects. -/
theorem correct_password_still_challenged_witness :
    redirectHandler (some (createLinkRow 1 "secret" "https://example.com/landing"
        (some "hunter2") none none)) (some "hunter2") none 0 true true =
      ⟨401, none, none, some ("Password required", true), []⟩ :=
  correct_password_still_challenged "hunter2" "secret" "https://example.com/landing"
    (by decide) 1 0 true true

/-- C10: an empty-string password is no password on both sides —
`createLink` stores `null` for it (`if (password)` is falsy on `""`), a
link whose stored column is `null` resolves with no challenge for any
supplied password, and a protected link answered with a falsy supplied
password (absent or `""` in both query and body) yields the 401
challenge. -/
theorem empty_password_is_no_password :
    createLinkPassword (some "") = none ∧
    (∀ (link : Link) (qp bp : Option String) (now : Int) (ok wok : Bool),
      link.password = none → isExpired link.expiresAt now = false →
        (redirectHandler (some link) qp bp now ok wok).status = 302 ∧
        (redirectHandler (some link) qp bp now ok wok).challengeJson = none) ∧
    (∀ (link : Link) (qp bp : Option String) (now : Int) (ok wok : Bool),
      strTruthy link.password = true → isExpired link.expiresAt now = false →
      strTruthy qp = false → strTruthy bp = false →
        redirectHandler (some link) qp bp now ok wok =
          ⟨401, none, none, some ("Password required", true), []⟩) := by
  refine ⟨rfl, ?_, ?_⟩
  · intro link qp bp now ok wok hpw hexp
    have hgate : passwordGateFails link qp bp = false := by
      simp [passwordGateFails, hpw, strTruthy]
    constructor <;> simp [redirectHandler, hexp, hgate]
  · intro link qp bp now ok wok hpw hexp hqp hbp
    have hprov : strTruthy (jsOr qp bp) = false := by
      simp [jsOr, hqp, hbp]
    have hgate : passwordGateFails link qp bp = true := by
      simp [passwordGateFails, hpw, hprov]
    simp [redirectHandler, hexp, hgate]

/-- Witness for `empty_password_is_no_password`: creation with `""`
stores `null`; an unprotected link redirects with no challenge; a
protected link supplied `""` in the query and nothing in the body is
challenged. -/
theorem empty_password_is_no_password_witness :
    createLinkPassword (some "") = none ∧
    ((redirectHandler (some ⟨1, "open", "https://example.com/a", none, none, none⟩)
        (some "anything") none 0 true true).status = 302 ∧
     (redirectHandler (some ⟨1, "open", "https://example.com/a", none, none, none⟩)
        (some "anything") none 0 true true).challengeJson = none) ∧
    redirectHandler (some ⟨1, "sec", "https://example.com/b",
        some (bcryptHash "hunter2"), none, none⟩) (some "") none 0 true true =
      ⟨401, none, none, some ("Password required", true), []⟩ :=
  ⟨empty_password_is_no_password.1,
   empty_password_is_no_password.2.1
     ⟨1, "open", "https://example.com/a", none, none, none⟩
     (some "anything") none 0 true true rfl rfl,
   empty_password_is_no_password.2.2
     ⟨1, "sec", "https://example.com/b", some (bcryptHash "hunter2"), none, none⟩
     (some "") none 0 true true (by decide) rfl rfl rfl⟩

/-! ## Claims about the geo service -/

/-- Filtering a key out of the cache leaves nothing for `find?` on that
key. -/
lemma find?_filter_self (l : CacheState) (key : String) :
    ((l.filter fun x => x.key ≠ key).find? fun e => e.key = key) = none := by
  rw [List.find?_eq_none]
  intro x hx
  have hne := (List.mem_filter.mp hx).2
  simp only [decide_eq_true_eq] at hne ⊢
  exact hne

/-- After a missed `cache.get`, the resulting cache state holds no entry
for the key (the miss was either an absent key or a stale entry, which
the get deletes). -/
lemma cacheGet_none_no_entry (st : CacheState) (key : String) (now : Int)
    (h : (cacheGet st key now).1 = none) :
    ((cacheGet st key now).2.find? fun e => e.key = key) = none := by
  unfold cacheGet at h ⊢
  match hf : st.find? (fun e => e.key = key) with
  | none => simp [hf]
  | some e =>
    by_cases hstale : now - e.insertedAt > geoTtl
    · simp [hf, hstale, find?_filter_self]
    · simp [hf, hstale] at h

/-- With no cache entry for a (truthy) ip, `lookup` always runs the
external fetch, whatever the provider does. -/
lemma lookup_call_of_no_entry (st : CacheState) (ip : String) (now : Int)
    (prov : ProviderBehavior) (hip : ip ≠ "")
    (h : (st.find? fun e => e.key = ip) = none) :
    (lookup st ip now prov).madeExternalCall = true := by
  have hc : cacheGet st ip now = (none, st) := by simp [cacheGet, h]
  cases prov with
  | unreachable => simp [lookup, hip, hc]
  | badStatus => simp [lookup, hip, hc]
  | malformed => simp [lookup, hip, hc]
  | payload d =>
    by_cases hs : d.status = some "success" <;> simp [lookup, hip, hc, hs]

/-- On a cache miss with a failing provider, `lookup` returns `null`
and leaves the cache as the get left it (no negative caching). -/
lemma lookup_miss_fail (st : CacheState) (ip : String) (now : Int)
    (prov : ProviderBehavior) (hip : ip ≠ "")
    (hmiss : (cacheGet st ip now).1 = none) (hfail : providerFails prov = true) :
    lookup st ip now prov = ⟨none, (cacheGet st ip now).2, true⟩ := by
  rcases hpair : cacheGet st ip now with ⟨v, st₁⟩
  rw [hpair] at hmiss
  simp only at hmiss
  subst hmiss
  cases prov with
  | unreachable => simp [lookup, hip, hpair]
  | badStatus => simp [lookup, hip, hpair]
  | malformed => simp [lookup, hip, hpair]
  | payload d =>
    have hs : d.status ≠ some "success" := by
      simpa [providerFails] using hfail
    simp [lookup, hip, hpair, hs]

/-- C7: `lookup` on a falsy ip returns `null` untouched with no external
call; on a cache miss every provider failure (network error, non-ok
response, malformed body, non-`"success"` status) returns `null`, runs
the fetch, and caches nothing — so any later lookup of the same ip runs
the fetch again. -/
theorem geo_failure_not_cached :
    (∀ (st : CacheState) (now : Int) (prov : ProviderBehavior),
      lookup st "" now prov = ⟨none, st, false⟩) ∧
    (∀ (st : CacheState) (ip : String) (now : Int) (prov : ProviderBehavior),
      ip ≠ "" → (cacheGet st ip now).1 = none → providerFails prov = true →
        (lookup st ip now prov).value = none ∧
        (lookup st ip now prov).madeExternalCall = true ∧
        ∀ (now₂ : Int) (prov₂ : ProviderBehavior),
          (lookup (lookup st ip now prov).cache ip now₂ prov₂).madeExternalCall = true) := by
  constructor
  · intro st now prov
    simp [lookup]
  · intro st ip now prov hip hmiss hfail
    rw [lookup_miss_fail st ip now prov hip hmiss hfail]
    refine ⟨rfl, rfl, ?_⟩
    intro now₂ prov₂
    exact lookup_call_of_no_entry _ ip now₂ prov₂ hip
      (cacheGet_none_no_entry st ip now hmiss)

/-- Witness for `geo_failure_not_cached`: on an empty cache, a lookup of
`1.2.3.4` against an unreachable provider returns `null`, makes the
external call, and a retry still makes the external call. -/
theorem geo_failure_not_cached_witness :
    (lookup [] "" 0 ProviderBehavior.unreachable = ⟨none, [], false⟩) ∧
    (lookup [] "1.2.3.4" 0 ProviderBehavior.unreachable).value = none ∧
    (lookup [] "1.2.3.4" 0 ProviderBehavior.unreachable).madeExternalCall = true ∧
    (lookup (lookup [] "1.2.3.4" 0 ProviderBehavior.unreachable).cache
      "1.2.3.4" 5 ProviderBehavior.unreachable).madeExternalCall = true :=
  ⟨geo_failure_not_cached.1 [] 0 ProviderBehavior.unreachable,
   (geo_failure_not_cached.2 [] "1.2.3.4" 0 ProviderBehavior.unreachable
      (by decide) rfl rfl).1,
   (geo_failure_not_cached.2 [] "1.2.3.4" 0 ProviderBehavior.unreachable
      (by decide) rfl rfl).2.1,
   (geo_failure_not_cached.2 [] "1.2.3.4" 0 ProviderBehavior.unreachable
      (by decide) rfl rfl).2.2 5 ProviderBehavior.unreachable⟩

/-- `cache.set` puts the new entry at the most-recently-used front. -/
lemma cacheSet_eq_cons (st : CacheState) (key : String) (v : GeoResult) (now : Int) :
    cacheSet st key v now =
      ⟨key, v, now⟩ :: ((st.filter fun e => e.key ≠ key).take 499) := by
  have h500 : geoMax = 499 + 1 := rfl
  rw [cacheSet, h500, List.take_succ_cons]

/-- `cache.get` on a cache whose front entry carries the key is a hit
when the entry is not stale. -/
lemma cacheGet_cons_fresh (e : CacheEntry) (rest : CacheState) (now : Int)
    (hfresh : ¬ now - e.insertedAt > geoTtl) :
    cacheGet (e :: rest) e.key now =
      (some e.value, e :: ((e :: rest).filter fun x => x.key ≠ e.key)) := by
  have hfind : ((e :: rest).find? fun x => x.key = e.key) = some e :=
    List.find?_cons_of_pos _ (by simp)
  simp [cacheGet, hfind, hfresh]

/-- On a miss with a `"success"` payload, `lookup` normalizes, caches
and returns the result. -/
lemma lookup_miss_success (st : CacheState) (ip : String) (now : Int)
    (d : GeoApiData) (hip : ip ≠ "") (hmiss : (cacheGet st ip now).1 = none)
    (hsucc : d.status = some "success") :
    lookup st ip now (ProviderBehavior.payload d) =
      ⟨some (normalizeGeo ip d),
       cacheSet (cacheGet st ip now).2 ip (normalizeGeo ip d) now, true⟩ := by
  rcases hpair : cacheGet st ip now with ⟨v, st₁⟩
  rw [hpair] at hmiss
  simp only at hmiss
  subst hmiss
  simp [lookup, hip, hpair, hsucc]

/-- C8: when a first `lookup` of an ip misses the cache and the provider
answers with a `"success"` payload, the call returns the normalized
result, and a second `lookup` of the same ip within the one-hour TTL
returns the very same result without running the external fetch — even
when the provider is unreachable at that moment. -/
theorem geo_cache_hit_within_ttl (st : CacheState) (ip : String)
    (now₁ now₂ : Int) (d : GeoApiData) (prov₂ : ProviderBehavior)
    (hip : ip ≠ "") (hmiss : (cacheGet st ip now₁).1 = none)
    (hsucc : d.status = some "success") (hts : now₂ - now₁ ≤ geoTtl) :
    (lookup st ip now₁ (ProviderBehavior.payload d)).value =
      some (normalizeGeo ip d) ∧
    (lookup (lookup st ip now₁ (ProviderBehavior.payload d)).cache ip now₂ prov₂).value =
      some (normalizeGeo ip d) ∧
    (lookup (lookup st ip now₁ (ProviderBehavior.payload d)).cache ip now₂
      prov₂).madeExternalCall = false := by
  rw [lookup_miss_success st ip now₁ d hip hmiss hsucc]
  refine ⟨rfl, ?_, ?_⟩ <;>
  · rw [cacheSet_eq_cons]
    have hhit := cacheGet_cons_fresh ⟨ip, normalizeGeo ip d, now₁⟩
      (((cacheGet st ip now₁).2.filter fun e => e.key ≠ ip).take 499) now₂
      (by simpa using not_lt.mpr hts)
    simp only [lookup, hip, hhit]
    simp

/-- Witness for `geo_cache_hit_within_ttl`: a success payload for
`1.2.3.4` on an empty cache; the retry 59 minutes later with the
provider unreachable still returns the cached value with no call. -/
theorem geo_cache_hit_within_ttl_witness :
    (lookup [] "1.2.3.4" 0 (ProviderBehavior.payload
        ⟨some "success", some "France", some "IDF", none, some "Paris",
          some 48, some 2⟩)).value =
      some (normalizeGeo "1.2.3.4"
        ⟨some "success", some "France", some "IDF", none, some "Paris",
          some 48, some 2⟩) ∧
    (lookup (lookup [] "1.2.3.4" 0 (ProviderBehavior.payload
        ⟨some "success", some "France", some "IDF", none, some "Paris",
          some 48, some 2⟩)).cache "1.2.3.4" 3540000
        ProviderBehavior.unreachable).value =
      some (normalizeGeo "1.2.3.4"
        ⟨some "success", some "France", some "IDF", none, some "Paris",
          some 48, some 2⟩) ∧
    (lookup (lookup [] "1.2.3.4" 0 (ProviderBehavior.payload
        ⟨some "success", some "France", some "IDF", none, some "Paris",
          some 48, some 2⟩)).cache "1.2.3.4" 3540000
        ProviderBehavior.unreachable).madeExternalCall = false :=
  geo_cache_hit_within_ttl [] "1.2.3.4" 0 3540000
    ⟨some "success", some "France", some "IDF", none, some "Paris", some 48, some 2⟩
    ProviderBehavior.unreachable (by decide) rfl rfl (by decide)

/-- C9: a success payload whose fields are all falsy (empty-string
country/region/city, latitude and longitude exactly `0`) normalizes to
all-`null` fields: the lookup result, including the cached entry, is
identical to the one produced by a payload omitting those fields
entirely. -/
theorem geo_falsy_fields_null (st : CacheState) (ip : String) (now : Int)
    (d : GeoApiData) (hip : ip ≠ "") (hmiss : (cacheGet st ip now).1 = none)
    (hsucc : d.status = some "success")
    (hco : d.country = some "") (hrn : d.regionName = some "")
    (hr : d.region = some "") (hci : d.city = some "")
    (hla : d.lat = some 0) (hlo : d.lon = some 0) :
    (lookup st ip now (ProviderBehavior.payload d)).value =
      some ⟨ip, none, none, none, none, none⟩ ∧
    lookup st ip now (ProviderBehavior.payload d) =
      lookup st ip now (ProviderBehavior.payload
        ⟨some "success", none, none, none, none, none, none⟩) ∧
    (lookup st ip now (ProviderBehavior.payload d)).cache.head? =
      some ⟨ip, ⟨ip, none, none, none, none, none⟩, now⟩ := by
  have hnorm : normalizeGeo ip d = ⟨ip, none, none, none, none, none⟩ := by
    simp [normalizeGeo, strOrNull, numOrNull, jsOr, strTruthy,
      hco, hrn, hr, hci, hla, hlo]
  have hnorm' : normalizeGeo ip ⟨some "success", none, none, none, none, none, none⟩ =
      ⟨ip, none, none, none, none, none⟩ := rfl
  rw [lookup_miss_success st ip now d hip hmiss hsucc,
    lookup_miss_success st ip now _ hip hmiss rfl, hnorm, hnorm',
    cacheSet_eq_cons]
  exact ⟨rfl, rfl, rfl⟩

/-- Witness for `geo_falsy_fields_null`: a payload with country `""`,
region `""`, city `""` and coordinates `0` for `1.2.3.4` on an empty
cache yields the all-`null` result, equal to the one for an
all-absent payload, and is cached as such. -/
theorem geo_falsy_fields_null_witness :
    (lookup [] "1.2.3.4" 0 (ProviderBehavior.payload
        ⟨some "success", some "", some "", some "", some "", some 0, some 0⟩)).value =
      some ⟨"1.2.3.4", none, none, none, none, none⟩ ∧
    lookup [] "1.2.3.4" 0 (ProviderBehavior.payload
        ⟨some "success", some "", some "", some "", some "", some 0, some 0⟩) =
      lookup [] "1.2.3.4" 0 (ProviderBehavior.payload
        ⟨some "success", none, none, none, none, none, none⟩) ∧
    (lookup [] "1.2.3.4" 0 (ProviderBehavior.payload
        ⟨some "success", some "", some "", some "", some "", some 0, some 0⟩)).cache.head? =
      some ⟨"1.2.3.4", ⟨"1.2.3.4", none, none, none, none, none⟩, 0⟩ :=
  geo_falsy_fields_null [] "1.2.3.4" 0
    ⟨some "success", some "", some "", some "", some "", some 0, some 0⟩
    (by decide) rfl rfl rfl rfl rfl rfl rfl rfl

end UrlShortener
